import Mathlib

/-!
# Request-handling contract of `BoxImageServiceImpl::Classify`

A shallow embedding of `src/tf_convnet_inference.cc`.

* The element type of tensors, of the request's `image_data` and of the
  response's `value` field is a parameter `α`: the service only copies
  elements (`std::copy_n`, `add_value`) and never computes with them.
* A tensor carries its run-time element type `dtype`, which the session
  chooses for the tensors it returns. The accessor `flat<float>()` gives the
  elements of a `DT_FLOAT` tensor and aborts the process on any other.
* The session (`bundle_->session`) is a function from the arguments of one
  `Run` invocation to the status and the output tensors it produces.
* `Classify` gives the gRPC status it returns, or none when the process
  aborted before returning one, and next to it the response message after the
  call and the list of `Run` invocations it made, in order.
-/

namespace tensorflow

/-- The status of a TensorFlow operation: `code()` is the numeric value of
`tensorflow::error::Code` (0 is `OK`), `error_message()` the message. -/
structure Status where
  code : Int
  error_message : String
deriving DecidableEq, Repr

/-- The member `Status::ok()`: the code is `OK`. -/
def Status.ok (s : Status) : Bool := s.code == 0

/-- The element types of tensors, `tensorflow::DataType`, by their first
values in `types.proto`: a TensorFlow library enumeration, absent from src/.
The service names `DT_FLOAT` only. -/
inductive DataType where
  | DT_INVALID
  | DT_FLOAT
  | DT_DOUBLE
  | DT_INT32
  | DT_UINT8
  | DT_INT16
  | DT_INT8
  | DT_STRING
  | DT_COMPLEX64
  | DT_INT64
  | DT_BOOL
deriving DecidableEq, Repr

/-- A tensor: its run-time element type `dtype()`, the dimensions of its
`TensorShape` and the contents of its buffer in row-major order. The service
reads the buffer through `flat<float>()` only. -/
structure Tensor (α : Type) where
  dtype : DataType
  shape : List Nat
  flat : List α
deriving DecidableEq, Repr

/-- The accessor `flat<float>()`, a TensorFlow library template absent from
src/: the elements of a `DT_FLOAT` tensor. On a tensor of another element type
its check of the type fails and the process aborts, for which `none` stands. -/
def Tensor.flat_float {α : Type} (t : Tensor α) : Option (List α) :=
  if t.dtype = DataType.DT_FLOAT then some t.flat else none

/-- The number of elements a shape describes, `TensorShape::num_elements()`. -/
def TensorShape.num_elements (dims : List Nat) : Nat := dims.prod

/-- A tensor holds exactly as many elements as its shape describes. -/
def Tensor.WellFormed {α : Type} (t : Tensor α) : Prop :=
  t.flat.length = TensorShape.num_elements t.shape

/-- Modelled from the spec: `TensorShape::IsSameSize` is a TensorFlow library
function, absent from src/. It holds when the two shapes have the same number
of dimensions and the same size in each dimension; the spec reads the check as
"the shape is not exactly `[1, kNumLabels]`". -/
def TensorShape.IsSameSize : List Nat → List Nat → Bool
  | [], [] => true
  | a :: as, b :: bs => a == b && TensorShape.IsSameSize as bs
  | _, _ => false

/-- Modelled from the spec: `strings::StrCat` is a TensorFlow library
function, absent from src/. It concatenates its arguments, integers rendered
in decimal. -/
def strings.StrCat (pieces : List String) : String := String.join pieces

/-- The decimal rendering `StrCat` gives a non-negative integer argument. -/
def strings.AlphaNum (n : Nat) : String := Nat.repr n

/-- Modelled from the spec: `TensorShape::DebugString` is a TensorFlow library
function, absent from src/. It is the human-readable dimension description:
the dimension sizes in decimal, separated by commas, in square brackets. -/
def TensorShape.DebugString (dims : List Nat) : String :=
  strings.StrCat ["[", ",".intercalate (dims.map strings.AlphaNum), "]"]

/-- The arguments of one `Session::Run` invocation: the named input tensors,
the requested output tensor names and the target operations. -/
structure RunCall (α : Type) where
  inputs : List (String × Tensor α)
  output_tensor_names : List String
  target_node_names : List String
deriving DecidableEq, Repr

/-- The session of a loaded model: what `Run` returns for given arguments,
its status and the contents of `outputs`. -/
abbrev Session (α : Type) := RunCall α → Status × List (Tensor α)

namespace serving

/-- A tensor binding of a signature: `tensor_name()`. -/
structure TensorBinding where
  tensor_name : String
deriving DecidableEq, Repr

/-- The classification signature: the bindings `input()` and `scores()`. -/
structure ClassificationSignature where
  input : TensorBinding
  scores : TensorBinding
deriving DecidableEq, Repr

/-- The session bundle: the session and the metadata of the loaded model. -/
structure SessionBundle (α M : Type) where
  session : Session α
  meta_graph_def : M

/-- The request message: the repeated field `image_data`. -/
structure BoxImageRequest (α : Type) where
  image_data : List α
deriving DecidableEq, Repr

/-- The accessor `image_data_size()`. -/
def BoxImageRequest.image_data_size {α : Type} (r : BoxImageRequest α) : Nat :=
  r.image_data.length

/-- The response message: the repeated field `value`. -/
structure BoxImageResponse (α : Type) where
  value : List α
deriving DecidableEq, Repr

/-- The mutator `add_value`: appends one element to `value`. -/
def BoxImageResponse.add_value {α : Type} (r : BoxImageResponse α) (v : α) :
    BoxImageResponse α :=
  ⟨r.value ++ [v]⟩

end serving
end tensorflow

namespace grpc

/-- The numeric values of `grpc::StatusCode` the service names. -/
def StatusCode.OK : Int := 0

/-- The code `grpc::StatusCode::INVALID_ARGUMENT`. -/
def StatusCode.INVALID_ARGUMENT : Int := 3

/-- The code `grpc::StatusCode::INTERNAL`. -/
def StatusCode.INTERNAL : Int := 13

/-- The code `grpc::StatusCode::UNAVAILABLE`. -/
def StatusCode.UNAVAILABLE : Int := 14

/-- The code `grpc::StatusCode::FAILED_PRECONDITION`. -/
def StatusCode.FAILED_PRECONDITION : Int := 9

/-- The status a gRPC handler returns: `error_code()` as the numeric value of
`grpc::StatusCode`, and `error_message()`. -/
structure Status where
  error_code : Int
  error_message : String
deriving DecidableEq, Repr

/-- The constant `Status::OK`: code `OK`, empty message. -/
def Status.OK : Status := ⟨StatusCode.OK, ""⟩

/-- The member `Status::ok()`. -/
def Status.ok (s : Status) : Bool := s.error_code == StatusCode.OK

end grpc

open tensorflow tensorflow.serving

/-- The constant `kImageSize`. -/
def kImageSize : Nat := 150

/-- The constant `kNumChannels`. -/
def kNumChannels : Nat := 1

/-- The constant `kImageDataSize`. -/
def kImageDataSize : Nat := kImageSize * kImageSize * kNumChannels

/-- The constant `kNumLabels`. -/
def kNumLabels : Nat := 4

/-- Creates a gRPC status from a TensorFlow status: the code is cast, keeping
its numeric value, and the message is kept. -/
def ToGRPCStatus (status : tensorflow.Status) : grpc.Status :=
  ⟨status.code, status.error_message⟩

/-- The algorithm `std::copy_n(first, n, out)` read as the sequence written
to `out`: the first `n` elements of the source. -/
def copy_n {α : Type} (src : List α) (n : Nat) : List α := src.take n

/-- The state of the service: the bundle, the stored status of the signature
resolution and the signature. -/
structure BoxImageServiceImpl (α M : Type) where
  bundle_ : SessionBundle α M
  signature_status_ : tensorflow.Status
  signature_ : ClassificationSignature

/-- The constructor of the service. `GetClassificationSignature` is a function
of the serving library, absent from src/, and is taken as a parameter: from the
metadata it gives a status and the signature it wrote. -/
def BoxImageServiceImpl.new {α M : Type}
    (GetClassificationSignature : M → tensorflow.Status × ClassificationSignature)
    (bundle : SessionBundle α M) : BoxImageServiceImpl α M :=
  ⟨bundle, (GetClassificationSignature bundle.meta_graph_def).1,
    (GetClassificationSignature bundle.meta_graph_def).2⟩

/-- What one call of `Classify` leaves behind: the returned status, or `none`
when the process aborted before the method returned; the response message
after the call; and the `Run` invocations made, in order. -/
structure ClassifyResult (α : Type) where
  status : Option grpc.Status
  response : BoxImageResponse α
  calls : List (RunCall α)

/-- The loop `for (int i = 0; i < score_flat.size(); ++i)
response->add_value(score_flat(i));` started at index `i`. The loop is reached
only with a tensor of shape `[1, kNumLabels]`, so `i` stays within `int`. -/
def addScores {α : Type} (score_flat : List α) (i : Nat)
    (response : BoxImageResponse α) : BoxImageResponse α :=
  if h : i < score_flat.length then
    addScores score_flat (i + 1) (response.add_value score_flat[i])
  else
    response
termination_by score_flat.length - i

/-- The method `BoxImageServiceImpl::Classify`. The input tensor is built as
`DT_FLOAT`, so `input.flat<float>()` gives its buffer. After the check of the
shape, `outputs[0].flat<float>()` aborts the process when the output tensor is
not `DT_FLOAT`: nothing in the method checks the element type before. -/
def Classify {α M : Type} (self : BoxImageServiceImpl α M)
    (request : BoxImageRequest α) (response : BoxImageResponse α) :
    ClassifyResult α :=
  -- Verify protobuf input.
  if request.image_data_size ≠ kImageDataSize then
    ⟨some ⟨grpc.StatusCode.INVALID_ARGUMENT,
        strings.StrCat ["expected image_data of size ",
          strings.AlphaNum kImageDataSize, ", got ",
          strings.AlphaNum request.image_data_size]⟩,
      response, []⟩
  else
    -- Transform protobuf input to inference input tensor.
    let input : Tensor α :=
      ⟨DataType.DT_FLOAT, [1, kImageDataSize], copy_n request.image_data kImageDataSize⟩
    -- Run inference.
    if ¬ self.signature_status_.ok then
      ⟨some (ToGRPCStatus self.signature_status_), response, []⟩
    else
      let call : RunCall α :=
        ⟨[(self.signature_.input.tensor_name, input)],
          [self.signature_.scores.tensor_name], []⟩
      let ran := self.bundle_.session call
      let status := ran.1
      let outputs := ran.2
      if ¬ status.ok then
        ⟨some (ToGRPCStatus status), response, [call]⟩
      else
        -- Transform inference output tensor to protobuf output.
        if h : outputs.length ≠ 1 then
          ⟨some ⟨grpc.StatusCode.INTERNAL,
              strings.StrCat ["expected one model output, got ",
                strings.AlphaNum outputs.length]⟩,
            response, [call]⟩
        else
          have h0 : 0 < outputs.length := by omega
          let score_tensor := outputs[0]
          let expected_shape : List Nat := [1, kNumLabels]
          if ¬ TensorShape.IsSameSize score_tensor.shape expected_shape then
            ⟨some ⟨grpc.StatusCode.INTERNAL,
                strings.StrCat ["expected output of size ",
                  TensorShape.DebugString expected_shape, ", got ",
                  TensorShape.DebugString score_tensor.shape]⟩,
              response, [call]⟩
          else
            match outputs[0].flat_float with
            | none => ⟨none, response, [call]⟩
            | some score_flat =>
              ⟨some grpc.Status.OK, addScores score_flat 0 response, [call]⟩

/-- The invocation of the session the contract describes for a request: one
`DT_FLOAT` input tensor of shape `[1, kImageDataSize]` holding the request's samples in
order, bound to the signature's input tensor name; the signature's scores
tensor name as the only requested output; no target operations. -/
def expectedRunCall {α M : Type} (self : BoxImageServiceImpl α M)
    (request : BoxImageRequest α) : RunCall α :=
  ⟨[(self.signature_.input.tensor_name,
      ⟨DataType.DT_FLOAT, [1, kImageDataSize], request.image_data⟩)],
    [self.signature_.scores.tensor_name], []⟩

/-- What the session answers to the invocation the contract describes. -/
def backendReply {α M : Type} (self : BoxImageServiceImpl α M)
    (request : BoxImageRequest α) : tensorflow.Status × List (Tensor α) :=
  self.bundle_.session (expectedRunCall self request)

/-- A message cites a piece of text: the piece occurs in it, contiguously. -/
def cites (message piece : String) : Prop := piece.data <:+: message.data

instance (message piece : String) : Decidable (cites message piece) :=
  inferInstanceAs (Decidable (piece.data <:+: message.data))

/-- A session stub that answers every invocation with the same status and
output tensors. -/
def stubSession {α : Type} (status : tensorflow.Status) (outputs : List (Tensor α)) :
    Session α :=
  fun _ => (status, outputs)

/-- A service built by the constructor over a stub session, with the given
outcome of the signature resolution. -/
def stubService {α : Type} (resolution : tensorflow.Status)
    (status : tensorflow.Status) (outputs : List (Tensor α)) :
    BoxImageServiceImpl α Unit :=
  BoxImageServiceImpl.new
    (fun _ => (resolution, ⟨⟨"images"⟩, ⟨"scores"⟩⟩))
    ⟨stubSession status outputs, ()⟩

/-- A request of exactly `kImageDataSize` samples, all different: 0, 1, 2, ... -/
def fullRequest : BoxImageRequest Nat := ⟨List.range kImageDataSize⟩

/-- A request of exactly `kImageDataSize` samples, all equal to `v`. -/
def constRequest {α : Type} (v : α) : BoxImageRequest α :=
  ⟨List.replicate kImageDataSize v⟩

/-! ## Shared lemmas -/

theorem kImageDataSize_eq : kImageDataSize = 22500 := by decide

theorem fullRequest_size : fullRequest.image_data_size = kImageDataSize := by
  simp [fullRequest, BoxImageRequest.image_data_size]

theorem constRequest_size {α : Type} (v : α) :
    (constRequest v).image_data_size = kImageDataSize := by
  simp [constRequest, BoxImageRequest.image_data_size]

theorem IsSameSize_iff (a b : List Nat) :
    TensorShape.IsSameSize a b = true ↔ a = b := by
  induction a generalizing b with
  | nil => cases b <;> simp [TensorShape.IsSameSize]
  | cons x xs ih =>
    cases b with
    | nil => simp [TensorShape.IsSameSize]
    | cons y ys => simp [TensorShape.IsSameSize, ih]

theorem addScores_eq {α : Type} (score_flat : List α) (i : Nat)
    (response : BoxImageResponse α) :
    addScores score_flat i response = ⟨response.value ++ score_flat.drop i⟩ := by
  generalize hn : score_flat.length - i = n
  induction n generalizing i response with
  | zero =>
    rw [addScores]
    have hi : ¬ i < score_flat.length := by omega
    have hd : score_flat.drop i = [] := List.drop_eq_nil_of_le (by omega)
    simp [hi, hd]
  | succ n ih =>
    rw [addScores]
    have hi : i < score_flat.length := by omega
    rw [dif_pos hi, ih (i + 1) _ (by omega), List.drop_eq_getElem_cons hi]
    simp only [BoxImageResponse.add_value, List.append_assoc, List.singleton_append]

theorem copy_n_full {α : Type} (request : BoxImageRequest α)
    (h : request.image_data_size = kImageDataSize) :
    copy_n request.image_data kImageDataSize = request.image_data := by
  unfold copy_n
  exact List.take_of_length_le (by simp [BoxImageRequest.image_data_size] at h; omega)

theorem Classify_size_exit {α M : Type} (self : BoxImageServiceImpl α M)
    (request : BoxImageRequest α) (response : BoxImageResponse α)
    (h : request.image_data_size ≠ kImageDataSize) :
    Classify self request response =
      ⟨some ⟨grpc.StatusCode.INVALID_ARGUMENT,
          strings.StrCat ["expected image_data of size ",
            strings.AlphaNum kImageDataSize, ", got ",
            strings.AlphaNum request.image_data_size]⟩, response, []⟩ := by
  simp [Classify, h]

theorem Classify_signature_exit {α M : Type} (self : BoxImageServiceImpl α M)
    (request : BoxImageRequest α) (response : BoxImageResponse α)
    (h : request.image_data_size = kImageDataSize)
    (hs : self.signature_status_.ok = false) :
    Classify self request response =
      ⟨some (ToGRPCStatus self.signature_status_), response, []⟩ := by
  simp [Classify, h, hs]

theorem Classify_backend_exit {α M : Type} (self : BoxImageServiceImpl α M)
    (request : BoxImageRequest α) (response : BoxImageResponse α)
    (h : request.image_data_size = kImageDataSize)
    (hs : self.signature_status_.ok = true)
    (hb : (backendReply self request).1.ok = false) :
    Classify self request response =
      ⟨some (ToGRPCStatus (backendReply self request).1), response,
        [expectedRunCall self request]⟩ := by
  simp only [backendReply, expectedRunCall] at hb ⊢
  simp [Classify, h, hs, copy_n_full request h, hb]

theorem Classify_count_exit {α M : Type} (self : BoxImageServiceImpl α M)
    (request : BoxImageRequest α) (response : BoxImageResponse α)
    (h : request.image_data_size = kImageDataSize)
    (hs : self.signature_status_.ok = true)
    (hb : (backendReply self request).1.ok = true)
    (hc : (backendReply self request).2.length ≠ 1) :
    Classify self request response =
      ⟨some ⟨grpc.StatusCode.INTERNAL,
          strings.StrCat ["expected one model output, got ",
            strings.AlphaNum (backendReply self request).2.length]⟩, response,
        [expectedRunCall self request]⟩ := by
  simp only [backendReply, expectedRunCall] at hb hc ⊢
  simp [Classify, h, hs, copy_n_full request h, hb, hc]

theorem Classify_shape_exit {α M : Type} (self : BoxImageServiceImpl α M)
    (request : BoxImageRequest α) (response : BoxImageResponse α)
    (h : request.image_data_size = kImageDataSize)
    (hs : self.signature_status_.ok = true)
    (hb : (backendReply self request).1.ok = true)
    (t : Tensor α) (hc : (backendReply self request).2 = [t])
    (hshape : t.shape ≠ [1, kNumLabels]) :
    Classify self request response =
      ⟨some ⟨grpc.StatusCode.INTERNAL,
          strings.StrCat ["expected output of size ",
            TensorShape.DebugString [1, kNumLabels], ", got ",
            TensorShape.DebugString t.shape]⟩, response,
        [expectedRunCall self request]⟩ := by
  have hne : TensorShape.IsSameSize t.shape [1, kNumLabels] = false := by
    rw [Bool.eq_false_iff]
    intro hsame
    exact hshape ((IsSameSize_iff _ _).mp hsame)
  simp only [backendReply, expectedRunCall] at hb hc ⊢
  simp [Classify, h, hs, copy_n_full request h, hb, hc, hne]

theorem Classify_abort_exit {α M : Type} (self : BoxImageServiceImpl α M)
    (request : BoxImageRequest α) (response : BoxImageResponse α)
    (h : request.image_data_size = kImageDataSize)
    (hs : self.signature_status_.ok = true)
    (hb : (backendReply self request).1.ok = true)
    (t : Tensor α) (hc : (backendReply self request).2 = [t])
    (hshape : t.shape = [1, kNumLabels])
    (hdtype : t.dtype ≠ DataType.DT_FLOAT) :
    Classify self request response =
      ⟨none, response, [expectedRunCall self request]⟩ := by
  have hsame : TensorShape.IsSameSize t.shape [1, kNumLabels] = true :=
    (IsSameSize_iff _ _).mpr hshape
  simp only [backendReply, expectedRunCall] at hb hc ⊢
  simp [Classify, h, hs, copy_n_full request h, hb, hc, hsame, Tensor.flat_float, hdtype]

theorem Classify_success_exit {α M : Type} (self : BoxImageServiceImpl α M)
    (request : BoxImageRequest α) (response : BoxImageResponse α)
    (h : request.image_data_size = kImageDataSize)
    (hs : self.signature_status_.ok = true)
    (hb : (backendReply self request).1.ok = true)
    (t : Tensor α) (hc : (backendReply self request).2 = [t])
    (hshape : t.shape = [1, kNumLabels])
    (hdtype : t.dtype = DataType.DT_FLOAT) :
    Classify self request response =
      ⟨some grpc.Status.OK, ⟨response.value ++ t.flat⟩,
        [expectedRunCall self request]⟩ := by
  have hsame : TensorShape.IsSameSize t.shape [1, kNumLabels] = true :=
    (IsSameSize_iff _ _).mpr hshape
  simp only [backendReply, expectedRunCall] at hb hc ⊢
  simp [Classify, h, hs, copy_n_full request h, hb, hc, hsame, Tensor.flat_float, hdtype,
    addScores_eq]

theorem StrCat_two (a b : String) : strings.StrCat [a, b] = a ++ b := by
  simp [strings.StrCat, String.join]

theorem StrCat_four (a b c d : String) :
    strings.StrCat [a, b, c, d] = a ++ (b ++ (c ++ d)) := by
  simp [strings.StrCat, String.join, String.append_assoc]

theorem cites_left (a b : String) : cites (a ++ b) a := by
  unfold cites
  rw [String.data_append]
  exact ⟨[], b.data, rfl⟩

theorem cites_right (a b : String) : cites (a ++ b) b := by
  unfold cites
  rw [String.data_append]
  exact ⟨a.data, [], by simp⟩

theorem cites_trans {m p q : String} (h₁ : cites m p) (h₂ : cites p q) : cites m q :=
  List.IsInfix.trans h₂ h₁

theorem size_message_eq (n : Nat) :
    strings.StrCat ["expected image_data of size ",
      strings.AlphaNum kImageDataSize, ", got ", strings.AlphaNum n] =
    "expected image_data of size 22500, got " ++ Nat.repr n := by
  have hk : strings.AlphaNum kImageDataSize = "22500" := by decide
  rw [StrCat_four, hk, ← String.append_assoc, ← String.append_assoc]
  rfl

theorem shape_message_eq (dims : List Nat) :
    strings.StrCat ["expected output of size ",
      TensorShape.DebugString [1, kNumLabels], ", got ",
      TensorShape.DebugString dims] =
    "expected output of size [1,4], got " ++ TensorShape.DebugString dims := by
  have hk : TensorShape.DebugString [1, kNumLabels] = "[1,4]" := by decide
  rw [StrCat_four, hk, ← String.append_assoc, ← String.append_assoc]
  rfl

theorem ok_ToGRPCStatus (status : tensorflow.Status) :
    (ToGRPCStatus status).ok = status.ok := by
  simp [ToGRPCStatus, grpc.Status.ok, tensorflow.Status.ok, grpc.StatusCode.OK]

theorem status_eq_of {s : grpc.Status} {c : Int} {m : String}
    (hc : s.error_code = c) (hm : s.error_message = m) : s = ⟨c, m⟩ := by
  cases s
  simp only at hc hm
  rw [hc, hm]

/-- Every call of `Classify` leaves by exactly one of its seven exits, taken
in the order of the source: five error returns, the abort in
`flat<float>()`, and the success return. -/
theorem Classify_exits {α M : Type} (self : BoxImageServiceImpl α M)
    (request : BoxImageRequest α) (response : BoxImageResponse α) :
    (request.image_data_size ≠ kImageDataSize ∧
      Classify self request response =
        ⟨some ⟨grpc.StatusCode.INVALID_ARGUMENT,
            strings.StrCat ["expected image_data of size ",
              strings.AlphaNum kImageDataSize, ", got ",
              strings.AlphaNum request.image_data_size]⟩, response, []⟩) ∨
    (request.image_data_size = kImageDataSize ∧
      self.signature_status_.ok = false ∧
      Classify self request response =
        ⟨some (ToGRPCStatus self.signature_status_), response, []⟩) ∨
    (request.image_data_size = kImageDataSize ∧
      self.signature_status_.ok = true ∧
      (backendReply self request).1.ok = false ∧
      Classify self request response =
        ⟨some (ToGRPCStatus (backendReply self request).1), response,
          [expectedRunCall self request]⟩) ∨
    (request.image_data_size = kImageDataSize ∧
      self.signature_status_.ok = true ∧
      (backendReply self request).1.ok = true ∧
      (backendReply self request).2.length ≠ 1 ∧
      Classify self request response =
        ⟨some ⟨grpc.StatusCode.INTERNAL,
            strings.StrCat ["expected one model output, got ",
              strings.AlphaNum (backendReply self request).2.length]⟩, response,
          [expectedRunCall self request]⟩) ∨
    (∃ t : Tensor α, request.image_data_size = kImageDataSize ∧
      self.signature_status_.ok = true ∧
      (backendReply self request).1.ok = true ∧
      (backendReply self request).2 = [t] ∧
      t.shape ≠ [1, kNumLabels] ∧
      Classify self request response =
        ⟨some ⟨grpc.StatusCode.INTERNAL,
            strings.StrCat ["expected output of size ",
              TensorShape.DebugString [1, kNumLabels], ", got ",
              TensorShape.DebugString t.shape]⟩, response,
          [expectedRunCall self request]⟩) ∨
    (∃ t : Tensor α, request.image_data_size = kImageDataSize ∧
      self.signature_status_.ok = true ∧
      (backendReply self request).1.ok = true ∧
      (backendReply self request).2 = [t] ∧
      t.shape = [1, kNumLabels] ∧
      t.dtype ≠ DataType.DT_FLOAT ∧
      Classify self request response =
        ⟨none, response, [expectedRunCall self request]⟩) ∨
    (∃ t : Tensor α, request.image_data_size = kImageDataSize ∧
      self.signature_status_.ok = true ∧
      (backendReply self request).1.ok = true ∧
      (backendReply self request).2 = [t] ∧
      t.shape = [1, kNumLabels] ∧
      t.dtype = DataType.DT_FLOAT ∧
      Classify self request response =
        ⟨some grpc.Status.OK, ⟨response.value ++ t.flat⟩,
          [expectedRunCall self request]⟩) := by
  by_cases h : request.image_data_size = kImageDataSize
  · right
    cases hs : self.signature_status_.ok with
    | false => exact Or.inl ⟨h, rfl, Classify_signature_exit self request response h hs⟩
    | true =>
      right
      cases hb : (backendReply self request).1.ok with
      | false =>
        exact Or.inl ⟨h, rfl, rfl, Classify_backend_exit self request response h hs hb⟩
      | true =>
        right
        by_cases hc : (backendReply self request).2.length = 1
        · right
          obtain ⟨t, ht⟩ := List.length_eq_one.mp hc
          by_cases hshape : t.shape = [1, kNumLabels]
          · right
            by_cases hdtype : t.dtype = DataType.DT_FLOAT
            · exact Or.inr ⟨t, h, rfl, rfl, ht, hshape, hdtype,
                Classify_success_exit self request response h hs hb t ht hshape hdtype⟩
            · exact Or.inl ⟨t, h, rfl, rfl, ht, hshape, hdtype,
                Classify_abort_exit self request response h hs hb t ht hshape hdtype⟩
          · exact Or.inl ⟨t, h, rfl, rfl, ht, hshape,
              Classify_shape_exit self request response h hs hb t ht hshape⟩
        · exact Or.inl ⟨h, rfl, rfl, hc,
            Classify_count_exit self request response h hs hb hc⟩
  · exact Or.inl ⟨h, Classify_size_exit self request response h⟩

/-! ## The claims -/

/-- C1: a request whose sample count differs from `kImageDataSize` (22500) is
answered, whatever the state of the service and its session, with an
`INVALID_ARGUMENT` error whose message states the expected size 22500 and the
actual size, and the session is not invoked. -/
theorem Classify_wrong_size_rejected {α M : Type} (self : BoxImageServiceImpl α M)
    (request : BoxImageRequest α) (response : BoxImageResponse α)
    (h : request.image_data_size ≠ kImageDataSize) :
    kImageDataSize = 150 * 150 * 1 ∧ kImageDataSize = 22500 ∧
    (∃ s : grpc.Status, (Classify self request response).status = some s ∧
      s.error_code = grpc.StatusCode.INVALID_ARGUMENT ∧
      s.error_message =
        "expected image_data of size 22500, got " ++ Nat.repr request.image_data_size ∧
      cites s.error_message "22500" ∧
      cites s.error_message (Nat.repr request.image_data_size)) ∧
    (Classify self request response).calls = [] := by
  have hm := size_message_eq request.image_data_size
  rw [Classify_size_exit self request response h]
  refine ⟨by decide, by decide, ⟨_, rfl, rfl, hm, ?_, ?_⟩, rfl⟩
  · show cites (strings.StrCat _) _
    rw [hm]
    exact cites_trans (cites_left _ _) (by decide)
  · show cites (strings.StrCat _) _
    rw [hm]
    exact cites_right _ _

/-- Witness of C1: a request of three samples. -/
theorem Classify_wrong_size_rejected_witness :
    (⟨[5, 6, 7]⟩ : BoxImageRequest Nat).image_data_size ≠ kImageDataSize ∧
    (Classify (stubService ⟨0, ""⟩ ⟨0, ""⟩ [⟨DataType.DT_FLOAT, [1, 4], [1, 2, 3, 4]⟩])
      ⟨[5, 6, 7]⟩ ⟨[]⟩).status =
      some ⟨grpc.StatusCode.INVALID_ARGUMENT,
        "expected image_data of size 22500, got 3"⟩ ∧
    (Classify (stubService ⟨0, ""⟩ ⟨0, ""⟩ [⟨DataType.DT_FLOAT, [1, 4], [1, 2, 3, 4]⟩])
      ⟨[5, 6, 7]⟩ ⟨[]⟩).calls = [] := by
  have hne : (⟨[5, 6, 7]⟩ : BoxImageRequest Nat).image_data_size ≠ kImageDataSize := by
    decide
  obtain ⟨_, _, ⟨s, hstat, hcode, hmsg, _, _⟩, hcalls⟩ :=
    Classify_wrong_size_rejected
      (stubService ⟨0, ""⟩ ⟨0, ""⟩ [⟨DataType.DT_FLOAT, [1, 4], [1, 2, 3, 4]⟩])
      ⟨[5, 6, 7]⟩ ⟨[]⟩ hne
  refine ⟨hne, ?_, hcalls⟩
  rw [hstat, status_eq_of hcode hmsg]
  rfl

/-- C2, counterexample: the session succeeds with exactly one output tensor
of shape `[1, kNumLabels]` holding 0.1, 0.2, 0.3, 0.4 as `DT_DOUBLE`. No
status is returned, the process aborts in `flat<float>()`, and the response
stays empty. -/
theorem Classify_double_scores_counterexample :
    (constRequest (0 : ℚ)).image_data_size = kImageDataSize ∧
    (stubService ⟨0, ""⟩ ⟨0, ""⟩
      [(⟨DataType.DT_DOUBLE, [1, 4], [0.1, 0.2, 0.3, 0.4]⟩ : Tensor ℚ)]
      ).signature_status_.ok = true ∧
    backendReply (stubService ⟨0, ""⟩ ⟨0, ""⟩
      [(⟨DataType.DT_DOUBLE, [1, 4], [0.1, 0.2, 0.3, 0.4]⟩ : Tensor ℚ)])
      (constRequest 0) =
      (⟨0, ""⟩, [⟨DataType.DT_DOUBLE, [1, kNumLabels], [0.1, 0.2, 0.3, 0.4]⟩]) ∧
    (⟨DataType.DT_DOUBLE, [1, 4], [0.1, 0.2, 0.3, 0.4]⟩ : Tensor ℚ).WellFormed ∧
    (Classify (stubService ⟨0, ""⟩ ⟨0, ""⟩
      [(⟨DataType.DT_DOUBLE, [1, 4], [0.1, 0.2, 0.3, 0.4]⟩ : Tensor ℚ)])
      (constRequest 0) ⟨[]⟩).status = none ∧
    (Classify (stubService ⟨0, ""⟩ ⟨0, ""⟩
      [(⟨DataType.DT_DOUBLE, [1, 4], [0.1, 0.2, 0.3, 0.4]⟩ : Tensor ℚ)])
      (constRequest 0) ⟨[]⟩).response.value = [] := by
  have e := Classify_abort_exit
    (stubService ⟨0, ""⟩ ⟨0, ""⟩
      [(⟨DataType.DT_DOUBLE, [1, 4], [0.1, 0.2, 0.3, 0.4]⟩ : Tensor ℚ)])
    (constRequest 0) ⟨[]⟩ (constRequest_size 0) rfl rfl
    ⟨DataType.DT_DOUBLE, [1, 4], [0.1, 0.2, 0.3, 0.4]⟩ rfl rfl (by decide)
  rw [e]
  exact ⟨constRequest_size 0, rfl, rfl, rfl, rfl, rfl⟩

/-- C2, amended: for a request of exactly `kImageDataSize` samples and a
resolved signature, when the session succeeds with exactly one output tensor
of element type `DT_FLOAT` and shape `[1, kNumLabels]`, `Classify` returns
success and the scores of the response, started empty, are the elements of
that tensor in order, `kNumLabels` of them. -/
theorem Classify_success_scores {α M : Type} (self : BoxImageServiceImpl α M)
    (request : BoxImageRequest α)
    (h : request.image_data_size = kImageDataSize)
    (hs : self.signature_status_.ok = true)
    (status : tensorflow.Status) (t : Tensor α)
    (hr : backendReply self request = (status, [t]))
    (hb : status.ok = true)
    (hdtype : t.dtype = DataType.DT_FLOAT)
    (hshape : t.shape = [1, kNumLabels]) (hwf : t.WellFormed) :
    (Classify self request ⟨[]⟩).status = some grpc.Status.OK ∧
    (Classify self request ⟨[]⟩).status = some ⟨0, ""⟩ ∧
    (∃ s : grpc.Status, (Classify self request ⟨[]⟩).status = some s ∧ s.ok = true) ∧
    (Classify self request ⟨[]⟩).response.value = t.flat ∧
    (Classify self request ⟨[]⟩).response.value.length = kNumLabels := by
  have hb1 : (backendReply self request).1.ok = true := by rw [hr]; exact hb
  have hc : (backendReply self request).2 = [t] := by rw [hr]
  have hlen : t.flat.length = kNumLabels := by
    have := hwf
    unfold Tensor.WellFormed TensorShape.num_elements at this
    rw [this, hshape]
    simp
  rw [Classify_success_exit self request ⟨[]⟩ h hs hb1 t hc hshape hdtype]
  exact ⟨rfl, rfl, ⟨_, rfl, rfl⟩, by simp, by simpa using hlen⟩

/-- Witness of C2 as amended: the session answers with the `DT_FLOAT` scores
0.1, 0.2, 0.3, 0.4. -/
theorem Classify_success_scores_witness :
    (constRequest (0 : ℚ)).image_data_size = kImageDataSize ∧
    (Classify (stubService ⟨0, ""⟩ ⟨0, ""⟩
      [⟨DataType.DT_FLOAT, [1, 4], [0.1, 0.2, 0.3, 0.4]⟩])
      (constRequest (0 : ℚ)) ⟨[]⟩).status = some ⟨0, ""⟩ ∧
    (Classify (stubService ⟨0, ""⟩ ⟨0, ""⟩
      [⟨DataType.DT_FLOAT, [1, 4], [0.1, 0.2, 0.3, 0.4]⟩])
      (constRequest (0 : ℚ)) ⟨[]⟩).response.value = [0.1, 0.2, 0.3, 0.4] :=
  have hthm := Classify_success_scores
    (stubService ⟨0, ""⟩ ⟨0, ""⟩ [⟨DataType.DT_FLOAT, [1, 4], [0.1, 0.2, 0.3, 0.4]⟩])
    (constRequest (0 : ℚ)) (constRequest_size 0) rfl ⟨0, ""⟩
    ⟨DataType.DT_FLOAT, [1, 4], [0.1, 0.2, 0.3, 0.4]⟩ rfl rfl rfl rfl rfl
  ⟨constRequest_size 0, hthm.2.1, hthm.2.2.2.1⟩

/-- C3: for a request of exactly `kImageDataSize` samples and a resolved
signature, `Classify` invokes the session exactly once: one `DT_FLOAT` input
tensor of shape `[1, kImageDataSize]` whose elements are the request's samples
in order, bound to the signature's input tensor name; the signature's scores
tensor name as the only requested output; no target operations. -/
theorem Classify_invokes_backend_once {α M : Type} (self : BoxImageServiceImpl α M)
    (request : BoxImageRequest α) (response : BoxImageResponse α)
    (h : request.image_data_size = kImageDataSize)
    (hs : self.signature_status_.ok = true) :
    (Classify self request response).calls.length = 1 ∧
    (Classify self request response).calls =
      [⟨[(self.signature_.input.tensor_name,
            ⟨DataType.DT_FLOAT, [1, kImageDataSize], request.image_data⟩)],
        [self.signature_.scores.tensor_name], []⟩] := by
  have hcalls : (Classify self request response).calls =
      [expectedRunCall self request] := by
    rcases Classify_exits self request response with
      ⟨hne, _⟩ | ⟨_, hf, _⟩ | ⟨_, _, _, e⟩ | ⟨_, _, _, _, e⟩ |
      ⟨t, _, _, _, _, _, e⟩ | ⟨t, _, _, _, _, _, _, e⟩ | ⟨t, _, _, _, _, _, _, e⟩
    · exact absurd h hne
    · rw [hs] at hf; cases hf
    all_goals rw [e]
  rw [hcalls]
  exact ⟨rfl, rfl⟩

/-- Witness of C3: a request of the samples 0, 1, 2, ... and a session that
fails; the invocation is made all the same. -/
theorem Classify_invokes_backend_once_witness :
    fullRequest.image_data_size = kImageDataSize ∧
    (Classify (stubService ⟨0, ""⟩ ⟨14, "model not loaded"⟩ ([] : List (Tensor Nat)))
      fullRequest ⟨[]⟩).calls =
      [⟨[("images", ⟨DataType.DT_FLOAT, [1, kImageDataSize], fullRequest.image_data⟩)],
        ["scores"], []⟩] :=
  ⟨fullRequest_size,
    (Classify_invokes_backend_once
      (stubService ⟨0, ""⟩ ⟨14, "model not loaded"⟩ ([] : List (Tensor Nat)))
      fullRequest ⟨[]⟩ fullRequest_size rfl).2⟩

/-- C4: when the signature resolution failed at construction, every request of
exactly `kImageDataSize` samples is answered with a non-success status that
carries the message of the stored resolution failure; two such requests get
the same status, whatever their samples; the session is not invoked. -/
theorem Classify_unresolved_signature {α M : Type}
    (GetClassificationSignature : M → tensorflow.Status × ClassificationSignature)
    (bundle : SessionBundle α M)
    (request₁ request₂ : BoxImageRequest α) (response₁ response₂ : BoxImageResponse α)
    (h₁ : request₁.image_data_size = kImageDataSize)
    (h₂ : request₂.image_data_size = kImageDataSize)
    (hfail : (GetClassificationSignature bundle.meta_graph_def).1.ok = false) :
    (∃ s : grpc.Status,
      (Classify (BoxImageServiceImpl.new GetClassificationSignature bundle)
        request₁ response₁).status = some s ∧
      s.ok = false ∧
      s.error_message =
        (GetClassificationSignature bundle.meta_graph_def).1.error_message ∧
      (Classify (BoxImageServiceImpl.new GetClassificationSignature bundle)
        request₂ response₂).status = some s) ∧
    (Classify (BoxImageServiceImpl.new GetClassificationSignature bundle)
      request₁ response₁).status =
      (Classify (BoxImageServiceImpl.new GetClassificationSignature bundle)
        request₂ response₂).status ∧
    (Classify (BoxImageServiceImpl.new GetClassificationSignature bundle)
      request₁ response₁).calls = [] ∧
    (Classify (BoxImageServiceImpl.new GetClassificationSignature bundle)
      request₂ response₂).calls = [] := by
  have hs : (BoxImageServiceImpl.new GetClassificationSignature bundle).signature_status_.ok
      = false := hfail
  rw [Classify_signature_exit _ request₁ response₁ h₁ hs,
    Classify_signature_exit _ request₂ response₂ h₂ hs]
  refine ⟨⟨_, rfl, ?_, rfl, rfl⟩, rfl, rfl, rfl⟩
  rw [ok_ToGRPCStatus]
  exact hs

/-- Witness of C4: a failed resolution and two requests with different
samples. -/
theorem Classify_unresolved_signature_witness :
    fullRequest.image_data_size = kImageDataSize ∧
    (constRequest 7).image_data_size = kImageDataSize ∧
    (Classify (stubService ⟨9, "no classification signature"⟩ ⟨0, ""⟩
      [⟨DataType.DT_FLOAT, [1, 4], [1, 2, 3, 4]⟩]) fullRequest ⟨[]⟩).status =
    (Classify (stubService ⟨9, "no classification signature"⟩ ⟨0, ""⟩
      [⟨DataType.DT_FLOAT, [1, 4], [1, 2, 3, 4]⟩]) (constRequest 7) ⟨[]⟩).status ∧
    (Classify (stubService ⟨9, "no classification signature"⟩ ⟨0, ""⟩
      [⟨DataType.DT_FLOAT, [1, 4], [1, 2, 3, 4]⟩]) fullRequest ⟨[]⟩).calls = [] := by
  have hthm := Classify_unresolved_signature
    (fun _ => (⟨9, "no classification signature"⟩, ⟨⟨"images"⟩, ⟨"scores"⟩⟩))
    (⟨stubSession ⟨0, ""⟩ [⟨DataType.DT_FLOAT, [1, 4], [1, 2, 3, 4]⟩], ()⟩ :
      SessionBundle Nat Unit)
    fullRequest (constRequest 7) ⟨[]⟩ ⟨[]⟩ fullRequest_size (constRequest_size 7) rfl
  unfold stubService
  exact ⟨fullRequest_size, constRequest_size 7, hthm.2.1, hthm.2.2.1⟩

/-- C5: for a request of exactly `kImageDataSize` samples and a resolved
signature, a failure of the session with code `c` and message `m` is returned
as a status with the same numeric code `c` and the same message `m`. -/
theorem Classify_backend_failure_verbatim {α M : Type} (self : BoxImageServiceImpl α M)
    (request : BoxImageRequest α) (response : BoxImageResponse α)
    (h : request.image_data_size = kImageDataSize)
    (hs : self.signature_status_.ok = true)
    (c : Int) (m : String) (outputs : List (Tensor α))
    (hr : backendReply self request = (⟨c, m⟩, outputs))
    (hb : (⟨c, m⟩ : tensorflow.Status).ok = false) :
    (Classify self request response).status = some ⟨c, m⟩ ∧
    (∃ s : grpc.Status, (Classify self request response).status = some s ∧
      s.error_code = c ∧ s.error_message = m ∧ s.ok = false) := by
  have hb1 : (backendReply self request).1.ok = false := by rw [hr]; exact hb
  rw [Classify_backend_exit self request response h hs hb1, hr]
  refine ⟨rfl, _, rfl, rfl, rfl, ?_⟩
  rw [ok_ToGRPCStatus]
  exact hb

/-- Witness of C5: the session reports `UNAVAILABLE`, "model not loaded". -/
theorem Classify_backend_failure_verbatim_witness :
    fullRequest.image_data_size = kImageDataSize ∧
    (Classify (stubService ⟨0, ""⟩ ⟨14, "model not loaded"⟩ ([] : List (Tensor Nat)))
      fullRequest ⟨[]⟩).status =
      some ⟨grpc.StatusCode.UNAVAILABLE, "model not loaded"⟩ :=
  ⟨fullRequest_size,
    (Classify_backend_failure_verbatim
      (stubService ⟨0, ""⟩ ⟨14, "model not loaded"⟩ ([] : List (Tensor Nat)))
      fullRequest ⟨[]⟩ fullRequest_size rfl 14 "model not loaded" [] rfl rfl).1⟩

/-- C6: for a request of exactly `kImageDataSize` samples and a resolved
signature, when the session succeeds with exactly one output tensor whose
shape, of any rank, is not `[1, kNumLabels]`, `Classify` returns an `INTERNAL`
error whose message states the expected shape `[1,4]` and the actual shape as
lists of dimensions; the response is left as it was. This holds whatever the
element type of the tensor. -/
theorem Classify_wrong_shape_rejected {α M : Type} (self : BoxImageServiceImpl α M)
    (request : BoxImageRequest α) (response : BoxImageResponse α)
    (h : request.image_data_size = kImageDataSize)
    (hs : self.signature_status_.ok = true)
    (status : tensorflow.Status) (t : Tensor α)
    (hr : backendReply self request = (status, [t]))
    (hb : status.ok = true)
    (hshape : t.shape ≠ [1, kNumLabels]) :
    (∃ s : grpc.Status, (Classify self request response).status = some s ∧
      s.error_code = grpc.StatusCode.INTERNAL ∧
      s.error_message =
        "expected output of size [1,4], got " ++ TensorShape.DebugString t.shape ∧
      cites s.error_message (TensorShape.DebugString [1, kNumLabels]) ∧
      cites s.error_message (TensorShape.DebugString t.shape) ∧
      s.ok = false) ∧
    (Classify self request response).response = response := by
  have hb1 : (backendReply self request).1.ok = true := by rw [hr]; exact hb
  have hc : (backendReply self request).2 = [t] := by rw [hr]
  have hm := shape_message_eq t.shape
  rw [Classify_shape_exit self request response h hs hb1 t hc hshape]
  refine ⟨⟨_, rfl, rfl, hm, ?_, ?_, rfl⟩, rfl⟩
  · show cites (strings.StrCat _) _
    rw [hm]
    exact cites_trans (cites_left _ _) (by decide)
  · show cites (strings.StrCat _) _
    rw [hm]
    exact cites_right _ _

/-- Witness of C6: an output tensor of shape `[kNumLabels, 1]`, which has the
expected number of elements and another shape. -/
theorem Classify_wrong_shape_rejected_witness :
    fullRequest.image_data_size = kImageDataSize ∧
    ([kNumLabels, 1] : List Nat) ≠ [1, kNumLabels] ∧
    (Classify (stubService ⟨0, ""⟩ ⟨0, ""⟩
      [⟨DataType.DT_FLOAT, [kNumLabels, 1], [1, 2, 3, 4]⟩])
      fullRequest ⟨[]⟩).status =
      some ⟨grpc.StatusCode.INTERNAL, "expected output of size [1,4], got [4,1]"⟩ ∧
    (Classify (stubService ⟨0, ""⟩ ⟨0, ""⟩
      [⟨DataType.DT_FLOAT, [kNumLabels, 1], [1, 2, 3, 4]⟩])
      fullRequest ⟨[]⟩).response = ⟨[]⟩ := by
  obtain ⟨⟨s, hstat, hcode, hmsg, _, _, _⟩, hresp⟩ := Classify_wrong_shape_rejected
    (stubService ⟨0, ""⟩ ⟨0, ""⟩ [⟨DataType.DT_FLOAT, [kNumLabels, 1], [1, 2, 3, 4]⟩])
    fullRequest ⟨[]⟩ fullRequest_size rfl ⟨0, ""⟩
    ⟨DataType.DT_FLOAT, [kNumLabels, 1], [1, 2, 3, 4]⟩ rfl rfl (by decide)
  refine ⟨fullRequest_size, by decide, ?_, hresp⟩
  rw [hstat, status_eq_of hcode hmsg]
  rfl

/-- C7, counterexample: the session succeeds with no output tensor; the
message of the `INTERNAL` error is "expected one model output, got 0", in
which the text "expected 1" does not occur. -/
theorem Classify_wrong_count_message_counterexample :
    fullRequest.image_data_size = kImageDataSize ∧
    (stubService ⟨0, ""⟩ ⟨0, ""⟩ ([] : List (Tensor Nat))).signature_status_.ok = true ∧
    (backendReply (stubService ⟨0, ""⟩ ⟨0, ""⟩ ([] : List (Tensor Nat))) fullRequest)
      = (⟨0, ""⟩, []) ∧
    (Classify (stubService ⟨0, ""⟩ ⟨0, ""⟩ ([] : List (Tensor Nat)))
      fullRequest ⟨[]⟩).status =
      some ⟨grpc.StatusCode.INTERNAL, "expected one model output, got 0"⟩ ∧
    ¬ cites "expected one model output, got 0" "expected 1" := by
  have e := Classify_count_exit (stubService ⟨0, ""⟩ ⟨0, ""⟩ ([] : List (Tensor Nat)))
    fullRequest ⟨[]⟩ fullRequest_size rfl rfl (by decide)
  rw [e]
  exact ⟨fullRequest_size, rfl, rfl, rfl, by decide⟩

/-- C7, amended: for a request of exactly `kImageDataSize` samples and a
resolved signature, when the session succeeds with `k` output tensors, `k = 0`
or `k ≥ 2`, `Classify` returns an `INTERNAL` error whose message is
"expected one model output, got k": it states the expected count as the word
"one" and the actual count `k` in decimal. The response is left as it was. -/
theorem Classify_wrong_count_rejected {α M : Type} (self : BoxImageServiceImpl α M)
    (request : BoxImageRequest α) (response : BoxImageResponse α)
    (h : request.image_data_size = kImageDataSize)
    (hs : self.signature_status_.ok = true)
    (status : tensorflow.Status) (outputs : List (Tensor α))
    (hr : backendReply self request = (status, outputs))
    (hb : status.ok = true)
    (hk : outputs.length = 0 ∨ 2 ≤ outputs.length) :
    (∃ s : grpc.Status, (Classify self request response).status = some s ∧
      s.error_code = grpc.StatusCode.INTERNAL ∧
      s.error_message = "expected one model output, got " ++ Nat.repr outputs.length ∧
      cites s.error_message "expected one" ∧
      cites s.error_message (Nat.repr outputs.length) ∧
      s.ok = false) ∧
    (Classify self request response).response = response := by
  have hb1 : (backendReply self request).1.ok = true := by rw [hr]; exact hb
  have hc : (backendReply self request).2.length ≠ 1 := by rw [hr]; simp only; omega
  rw [Classify_count_exit self request response h hs hb1 hc, hr]
  refine ⟨⟨_, rfl, rfl, StrCat_two _ _, ?_, ?_, rfl⟩, rfl⟩
  · show cites (strings.StrCat _) _
    rw [StrCat_two]
    exact cites_trans (cites_left _ _) (by decide)
  · show cites (strings.StrCat _) _
    rw [StrCat_two]
    exact cites_right _ _

/-- Witness of C7 as amended: the session succeeds with two output tensors. -/
theorem Classify_wrong_count_rejected_witness :
    fullRequest.image_data_size = kImageDataSize ∧
    (Classify (stubService ⟨0, ""⟩ ⟨0, ""⟩
      [⟨DataType.DT_FLOAT, [1, 4], [1, 2, 3, 4]⟩, ⟨DataType.DT_FLOAT, [1, 4], [5, 6, 7, 8]⟩])
      fullRequest ⟨[]⟩).status =
      some ⟨grpc.StatusCode.INTERNAL, "expected one model output, got 2"⟩ ∧
    (Classify (stubService ⟨0, ""⟩ ⟨0, ""⟩
      [⟨DataType.DT_FLOAT, [1, 4], [1, 2, 3, 4]⟩, ⟨DataType.DT_FLOAT, [1, 4], [5, 6, 7, 8]⟩])
      fullRequest ⟨[]⟩).response = ⟨[]⟩ := by
  obtain ⟨⟨s, hstat, hcode, hmsg, _, _, _⟩, hresp⟩ := Classify_wrong_count_rejected
    (stubService ⟨0, ""⟩ ⟨0, ""⟩
      [⟨DataType.DT_FLOAT, [1, 4], [1, 2, 3, 4]⟩, ⟨DataType.DT_FLOAT, [1, 4], [5, 6, 7, 8]⟩])
    fullRequest ⟨[]⟩ fullRequest_size rfl ⟨0, ""⟩
    [⟨DataType.DT_FLOAT, [1, 4], [1, 2, 3, 4]⟩, ⟨DataType.DT_FLOAT, [1, 4], [5, 6, 7, 8]⟩]
    rfl rfl (Or.inr (by decide))
  refine ⟨fullRequest_size, ?_, hresp⟩
  rw [hstat, status_eq_of hcode hmsg]
  rfl

/-- C8, counterexample: the resolution failed with `FAILED_PRECONDITION`; the
status `Classify` returns has that code, not `INTERNAL`. -/
theorem Classify_unresolved_code_counterexample :
    fullRequest.image_data_size = kImageDataSize ∧
    (stubService ⟨9, "no classification signature"⟩ ⟨0, ""⟩
      [(⟨DataType.DT_FLOAT, [1, 4], [1, 2, 3, 4]⟩ : Tensor Nat)]).signature_status_.ok
      = false ∧
    (Classify (stubService ⟨9, "no classification signature"⟩ ⟨0, ""⟩
      [(⟨DataType.DT_FLOAT, [1, 4], [1, 2, 3, 4]⟩ : Tensor Nat)]) fullRequest ⟨[]⟩).status =
      some ⟨grpc.StatusCode.FAILED_PRECONDITION, "no classification signature"⟩ ∧
    grpc.StatusCode.FAILED_PRECONDITION ≠ grpc.StatusCode.INTERNAL := by
  have e := Classify_signature_exit
    (stubService ⟨9, "no classification signature"⟩ ⟨0, ""⟩
      [(⟨DataType.DT_FLOAT, [1, 4], [1, 2, 3, 4]⟩ : Tensor Nat)])
    fullRequest ⟨[]⟩ fullRequest_size rfl
  rw [e]
  exact ⟨fullRequest_size, rfl, rfl, by decide⟩

/-- C8, amended: when the signature resolution failed at construction with
any failure status, every request of exactly `kImageDataSize` samples is
answered with an error whose status code is the numeric code of the
resolution failure (so `INTERNAL` exactly when that code is `INTERNAL`) and
whose message is the message of the resolution failure. -/
theorem Classify_unresolved_keeps_code {α M : Type}
    (GetClassificationSignature : M → tensorflow.Status × ClassificationSignature)
    (bundle : SessionBundle α M)
    (request : BoxImageRequest α) (response : BoxImageResponse α)
    (h : request.image_data_size = kImageDataSize)
    (hfail : (GetClassificationSignature bundle.meta_graph_def).1.ok = false) :
    ∃ s : grpc.Status,
      (Classify (BoxImageServiceImpl.new GetClassificationSignature bundle)
        request response).status = some s ∧
      s.ok = false ∧
      s.error_code = (GetClassificationSignature bundle.meta_graph_def).1.code ∧
      (s.error_code = grpc.StatusCode.INTERNAL ↔
        (GetClassificationSignature bundle.meta_graph_def).1.code =
          grpc.StatusCode.INTERNAL) ∧
      s.error_message =
        (GetClassificationSignature bundle.meta_graph_def).1.error_message := by
  have hs : (BoxImageServiceImpl.new GetClassificationSignature bundle).signature_status_.ok
      = false := hfail
  rw [Classify_signature_exit _ request response h hs]
  refine ⟨_, rfl, ?_, rfl, Iff.rfl, rfl⟩
  rw [ok_ToGRPCStatus]
  exact hs

/-- Witness of C8 as amended: a resolution that failed with `INTERNAL`. -/
theorem Classify_unresolved_keeps_code_witness :
    fullRequest.image_data_size = kImageDataSize ∧
    (Classify (stubService ⟨13, "signature lookup failed"⟩ ⟨0, ""⟩
      [(⟨DataType.DT_FLOAT, [1, 4], [1, 2, 3, 4]⟩ : Tensor Nat)]) fullRequest ⟨[]⟩).status =
      some ⟨grpc.StatusCode.INTERNAL, "signature lookup failed"⟩ := by
  obtain ⟨s, hstat, _, hcode, _, hmsg⟩ := Classify_unresolved_keeps_code
    (fun _ => (⟨13, "signature lookup failed"⟩, ⟨⟨"images"⟩, ⟨"scores"⟩⟩))
    (⟨stubSession ⟨0, ""⟩ [⟨DataType.DT_FLOAT, [1, 4], [1, 2, 3, 4]⟩], ()⟩ :
      SessionBundle Nat Unit)
    fullRequest ⟨[]⟩ fullRequest_size rfl
  unfold stubService
  refine ⟨fullRequest_size, ?_⟩
  rw [hstat, status_eq_of hcode hmsg]
  rfl

/-- C9: whatever the request, the state of the service and the behaviour of
the session, when `Classify` returns an error the response is exactly what it
was before the call, and so it is when the process aborts without a status;
values are appended only when it returns success, and then they are all the
elements of the single output tensor. -/
theorem Classify_no_partial_response {α M : Type} (self : BoxImageServiceImpl α M)
    (request : BoxImageRequest α) (response : BoxImageResponse α) :
    (∀ s : grpc.Status, (Classify self request response).status = some s →
      s.ok = false → (Classify self request response).response = response) ∧
    ((Classify self request response).status = none →
      (Classify self request response).response = response) ∧
    ((Classify self request response).response ≠ response →
      ∃ s : grpc.Status, (Classify self request response).status = some s ∧
        s.ok = true) ∧
    (∀ s : grpc.Status, (Classify self request response).status = some s →
      s.ok = true →
      ∃ t : Tensor α, (backendReply self request).2 = [t] ∧
        (Classify self request response).response.value = response.value ++ t.flat) := by
  have hOK : grpc.Status.OK.ok = true := by decide
  rcases Classify_exits self request response with
    ⟨_, e⟩ | ⟨_, hf, e⟩ | ⟨_, _, hf, e⟩ | ⟨_, _, _, _, e⟩ |
    ⟨t, _, _, _, _, _, e⟩ | ⟨t, _, _, _, _, _, _, e⟩ | ⟨t, _, _, _, ht, _, _, e⟩
  · rw [e]
    refine ⟨fun _ _ _ => rfl, fun _ => rfl, fun hne => absurd rfl hne, fun s hs hok => ?_⟩
    cases hs
    cases hok
  · rw [e]
    refine ⟨fun _ _ _ => rfl, fun _ => rfl, fun hne => absurd rfl hne, fun s hs hok => ?_⟩
    cases hs
    rw [ok_ToGRPCStatus, hf] at hok
    cases hok
  · rw [e]
    refine ⟨fun _ _ _ => rfl, fun _ => rfl, fun hne => absurd rfl hne, fun s hs hok => ?_⟩
    cases hs
    rw [ok_ToGRPCStatus, hf] at hok
    cases hok
  · rw [e]
    refine ⟨fun _ _ _ => rfl, fun _ => rfl, fun hne => absurd rfl hne, fun s hs hok => ?_⟩
    cases hs
    cases hok
  · rw [e]
    refine ⟨fun _ _ _ => rfl, fun _ => rfl, fun hne => absurd rfl hne, fun s hs hok => ?_⟩
    cases hs
    cases hok
  · rw [e]
    refine ⟨fun _ _ _ => rfl, fun _ => rfl, fun hne => absurd rfl hne, fun s hs _ => ?_⟩
    cases hs
  · rw [e]
    refine ⟨fun s hs hok => ?_, fun hnone => ?_, fun _ => ⟨_, rfl, hOK⟩,
      fun _ _ _ => ⟨t, ht, rfl⟩⟩
    · cases hs
      rw [hOK] at hok
      cases hok
    · cases hnone

